import Mathlib

/-
  Verification development for the weather-bot trading engine.

  Shallow embedding conventions:
  * Python floats are modelled as exact rationals (ℚ); the numeric claims
    under check are about order/interval facts that are exact in ℚ.
  * Python datetimes are modelled by `UTCTime`: an absolute UTC day index,
    the day index of the first day of the containing month, and the minute
    of day.  `datetime.replace(hour=0, ...)` becomes the day index,
    `weekday()` becomes `day % 7` (epoch chosen so Monday = 0), and
    `replace(day=1, hour=0, ...)` becomes the month-start day index.
  * Log calls, reason strings and stored halt-reason text are not modelled;
    boolean results and structured reason tags are.
-/

namespace WeatherBot

/-! ## src/data/weather_client.py -/

/-- The comparison operators accepted by `calculate_exceedance_probability`
(`">="`, `">"`, `"<="`, `"<"`); any other string raises, so the operator
is a four-valued type. -/
inductive Comparison where
  | ge
  | gt
  | le
  | lt
deriving DecidableEq, Repr

/-- The member count `n_exceed` computed by the `comparison` dispatch in
`calculate_exceedance_probability`. -/
def countExceed (ensembleValues : List ℚ) (threshold : ℚ) : Comparison → ℕ
  | Comparison.ge => ensembleValues.countP (fun v => decide (threshold ≤ v))
  | Comparison.gt => ensembleValues.countP (fun v => decide (threshold < v))
  | Comparison.le => ensembleValues.countP (fun v => decide (v ≤ threshold))
  | Comparison.lt => ensembleValues.countP (fun v => decide (v < threshold))

/-- `calculate_exceedance_probability` from `src/data/weather_client.py`. -/
def calculateExceedanceProbability (ensembleValues : List ℚ) (threshold : ℚ)
    (comparison : Comparison) (applySmoothing : Bool) : ℚ :=
  if ensembleValues = [] then 1/2
  else
    let nMembers : ℚ := ensembleValues.length
    let nExceed : ℚ := countExceed ensembleValues threshold comparison
    if applySmoothing then (nExceed + 1) / (nMembers + 2)
    else nExceed / nMembers

/-- `aggregate_model_probabilities` from `src/data/weather_client.py`.
`statistics.stdev` is the only irrational operation in the module; it is
passed in as an explicit function parameter `stdev` (the claims settled
here never depend on its value on two or more models). -/
def aggregateModelProbabilities (stdev : List ℚ → ℚ)
    (modelProbabilities : List (String × ℚ))
    (modelWeights : Option (List (String × ℚ))) : ℚ × ℚ :=
  if modelProbabilities = [] then (1/2, 0)
  else
    let weightOf : String → ℚ := fun m =>
      match modelWeights with
      | none => 1
      | some w => (w.lookup m).getD 1
    let totalWeight := (modelProbabilities.map (fun p => weightOf p.1)).sum
    let weightedSum := (modelProbabilities.map (fun p => p.2 * weightOf p.1)).sum
    let meanProb := if 0 < totalWeight then weightedSum / totalWeight else 1/2
    let probs := modelProbabilities.map Prod.snd
    let agreement :=
      if 1 < probs.length then max 0 (1 - 2 * stdev probs) else 1
    (meanProb, agreement)

/-! ## src/strategy/edge_calculator.py -/

/-- Market side, `"YES"` / `"NO"` strings in the source. -/
inductive Side where
  | yes
  | no
deriving DecidableEq, Repr

/-- `ConfidenceLevel` enum. -/
inductive ConfidenceLevel where
  | low
  | medium
  | high
deriving DecidableEq, Repr

/-- The `STRATEGY_CONFIG` entries consulted by `is_tradeable`
(`src/app/config.py`). -/
def minEdgeConfig : ℚ := 5/100
def maxEdgeConfig : ℚ := 50/100
def minModelAgreementConfig : ℚ := 60/100

/-- `EdgeCalculation` dataclass. -/
structure EdgeCalculation where
  forecastProbability : ℚ
  marketProbability : ℚ
  edge : ℚ
  expectedValue : ℚ
  modelAgreement : ℚ
  recommendedSide : Option Side
  confidenceLevel : ConfidenceLevel
  modelProbabilities : List (String × ℚ)
  edgeYes : ℚ
  edgeNo : ℚ
deriving DecidableEq, Repr

/-- `EdgeCalculation.is_tradeable`. -/
def isTradeable (e : EdgeCalculation) : Bool :=
  e.recommendedSide.isSome
    && decide (minEdgeConfig ≤ e.edge)
    && decide (e.edge ≤ maxEdgeConfig)
    && decide (minModelAgreementConfig ≤ e.modelAgreement)

/-- The clamp `max(0.01, min(0.99, x))` applied to both inputs of
`calculate_edge`. -/
def clampPrice (x : ℚ) : ℚ := max (1/100) (min (99/100) x)

/-- `EdgeCalculator._calculate_confidence`. -/
def calculateConfidence (edge modelAgreement : ℚ) : ConfidenceLevel :=
  if 8/10 ≤ modelAgreement ∧ 15/100 ≤ edge then ConfidenceLevel.high
  else if 6/10 ≤ modelAgreement ∧ 8/100 ≤ edge then ConfidenceLevel.medium
  else ConfidenceLevel.low

/-- `EdgeCalculator.calculate_edge`. -/
def calculateEdge (forecastProb marketPrice modelAgreement : ℚ)
    (modelProbabilities : List (String × ℚ)) : EdgeCalculation :=
  let mp := clampPrice marketPrice
  let fp := clampPrice forecastProb
  let edgeYes := fp / mp - 1
  let noMarketPrice := 1 - mp
  let noForecastProb := 1 - fp
  let edgeNo := noForecastProb / noMarketPrice - 1
  let sideEdgeEv : Option Side × ℚ × ℚ :=
    if edgeNo < edgeYes ∧ 0 < edgeYes then
      (some Side.yes, edgeYes, fp * (1 / mp) - 1)
    else if 0 < edgeNo then
      (some Side.no, edgeNo, noForecastProb * (1 / noMarketPrice) - 1)
    else
      (none, max edgeYes edgeNo, 0)
  { forecastProbability := fp
    marketProbability := mp
    edge := sideEdgeEv.2.1
    expectedValue := sideEdgeEv.2.2
    modelAgreement := modelAgreement
    recommendedSide := sideEdgeEv.1
    confidenceLevel := calculateConfidence sideEdgeEv.2.1 modelAgreement
    modelProbabilities := modelProbabilities
    edgeYes := edgeYes
    edgeNo := edgeNo }

/-- The per-model threshold adjustment in `calculate_forecast_probability`:
Fahrenheit thresholds are converted to Celsius for temperature models.
The membership test `"temperature" in model_name.lower()` is embedded as a
substring check. -/
def adjustThreshold (unit : String) (modelName : String) (threshold : ℚ) : ℚ :=
  if unit = "fahrenheit" ∧ (modelName.toLower).containsSubstr "temperature" then
    (threshold - 32) * 5 / 9
  else threshold

/-- `EdgeCalculator.calculate_forecast_probability`: per-model smoothed
probabilities for the models with a non-empty member list, then the
`(0.5, 0.0, empty)` fallback or the aggregation. -/
def calculateForecastProbability (stdev : List ℚ → ℚ)
    (ensembleData : List (String × List ℚ)) (threshold : ℚ)
    (comparison : Comparison) (unit : String)
    (modelWeights : Option (List (String × ℚ))) :
    ℚ × ℚ × List (String × ℚ) :=
  let modelProbabilities := ensembleData.filterMap (fun md =>
    if md.2 = [] then none
    else some (md.1,
      calculateExceedanceProbability md.2 (adjustThreshold unit md.1 threshold)
        comparison true))
  if modelProbabilities = [] then (1/2, 0, [])
  else
    let ag := aggregateModelProbabilities stdev modelProbabilities modelWeights
    (ag.1, ag.2, modelProbabilities)

/-! ## src/risk/risk_manager.py -/

/-- `HaltCondition` enum. -/
inductive HaltCondition where
  | none
  | dailyLoss
  | weeklyLoss
  | monthlyLoss
  | manual
  | systemError
  | apiDisconnected
deriving DecidableEq, Repr

/-- A UTC timestamp: absolute day index, the day index of the first day of
its month, and the minute of the day.  `weekday()` is `day % 7` with the
epoch chosen so that Monday is day `0 (mod 7)`. -/
structure UTCTime where
  day : ℤ
  monthStart : ℤ
  minuteOfDay : ℚ
deriving DecidableEq, Repr

/-- Absolute minutes, used to compare a timestamp against
`last_loss_time + timedelta(minutes=cooldown)`. -/
def UTCTime.toMinutes (t : UTCTime) : ℚ := (t.day : ℚ) * 1440 + t.minuteOfDay

/-- `timestamp - timedelta(days=timestamp.weekday())` at midnight: the day
index of the Monday that starts the week of `t`. -/
def UTCTime.weekStart (t : UTCTime) : ℤ := t.day - t.day % 7

/-- The fields of `RISK_LIMITS` read by the risk manager. -/
structure RiskConfig where
  maxDailyLossPct : ℚ
  maxWeeklyLossPct : ℚ
  maxMonthlyLossPct : ℚ
  maxSingleTrade : ℚ
  minSingleTrade : ℚ
  minHoursBeforeResolution : ℚ
  cooldownAfterLossMinutes : ℚ
deriving DecidableEq, Repr

/-- The default `RISK_LIMITS` of `src/app/config.py`. -/
def defaultRiskConfig : RiskConfig :=
  { maxDailyLossPct := 10/100
    maxWeeklyLossPct := 25/100
    maxMonthlyLossPct := 40/100
    maxSingleTrade := 10
    minSingleTrade := 1
    minHoursBeforeResolution := 12
    cooldownAfterLossMinutes := 30 }

/-- `RiskState` dataclass.  Period starts are stored as midnight datetimes
in the source, so they are day indices here (`monthly_start` is always the
first of a month).  The formatted `halt_reason` string and the `halt_time`
wall-clock read are informational only and not modelled. -/
structure RiskState where
  dailyPnl : ℚ := 0
  weeklyPnl : ℚ := 0
  monthlyPnl : ℚ := 0
  totalPnl : ℚ := 0
  dailyStart : ℤ := 0
  weeklyStart : ℤ := 0
  monthlyStart : ℤ := 0
  isHalted : Bool := false
  haltCondition : HaltCondition := HaltCondition.none
  lastLossTime : Option UTCTime := Option.none
  consecutiveLosses : ℕ := 0
  dailyTrades : ℕ := 0
  winningTrades : ℕ := 0
  losingTrades : ℕ := 0
deriving DecidableEq, Repr

/-- `RiskManager._clear_halt`. -/
def clearHaltState (s : RiskState) : RiskState :=
  { s with isHalted := false, haltCondition := HaltCondition.none }

/-- `RiskManager._trigger_halt`. -/
def triggerHalt (condition : HaltCondition) (s : RiskState) : RiskState :=
  { s with isHalted := true, haltCondition := condition }

/-- The `if self.state.halt_condition == <cause>: self._clear_halt(...)`
pattern at the end of the daily and weekly rollover blocks. -/
def rolloverClear (cause : HaltCondition) (s : RiskState) : RiskState :=
  if s.haltCondition = cause then clearHaltState s else s

/-- The daily block of `RiskManager._check_period_rollovers`: reset the
daily P&L and trade count, advance the period start, and clear a halt
whose cause is `DAILY_LOSS`. -/
def dailyRollover (t : UTCTime) (s : RiskState) : RiskState :=
  if s.dailyStart < t.day then
    rolloverClear HaltCondition.dailyLoss
      { s with dailyPnl := 0, dailyTrades := 0, dailyStart := t.day }
  else s

/-- The weekly block of `_check_period_rollovers`. -/
def weeklyRollover (t : UTCTime) (s : RiskState) : RiskState :=
  if s.weeklyStart < t.weekStart then
    rolloverClear HaltCondition.weeklyLoss
      { s with weeklyPnl := 0, weeklyStart := t.weekStart }
  else s

/-- The monthly block of `_check_period_rollovers`: the monthly branch
only logs a warning for a `MONTHLY_LOSS` halt and never clears it. -/
def monthlyRollover (t : UTCTime) (s : RiskState) : RiskState :=
  if s.monthlyStart < t.monthStart then
    { s with monthlyPnl := 0, monthlyStart := t.monthStart }
  else s

/-- `RiskManager._check_period_rollovers(timestamp)`: the daily, weekly
and monthly blocks run in that order on the same state. -/
def checkPeriodRollovers (t : UTCTime) (s : RiskState) : RiskState :=
  monthlyRollover t (weeklyRollover t (dailyRollover t s))

/-- `RiskManager._check_halt_conditions`: no-op when already halted, else
the daily, weekly, monthly triggers in that order (`if`/`elif`/`elif`). -/
def checkHaltConditions (cfg : RiskConfig) (initialBankroll : ℚ)
    (s : RiskState) : RiskState :=
  if s.isHalted then s
  else if s.dailyPnl ≤ -(initialBankroll * cfg.maxDailyLossPct) then
    triggerHalt HaltCondition.dailyLoss s
  else if s.weeklyPnl ≤ -(initialBankroll * cfg.maxWeeklyLossPct) then
    triggerHalt HaltCondition.weeklyLoss s
  else if s.monthlyPnl ≤ -(initialBankroll * cfg.maxMonthlyLossPct) then
    triggerHalt HaltCondition.monthlyLoss s
  else s

/-- The P&L-accumulation and trade-count block in the middle of
`RiskManager.update_pnl` (between the rollover check and the halt
check). -/
def applyPnlDelta (realizedPnl : ℚ) (timestamp : UTCTime) (s : RiskState) :
    RiskState :=
  if 0 ≤ realizedPnl then
    { s with
      dailyPnl := s.dailyPnl + realizedPnl
      weeklyPnl := s.weeklyPnl + realizedPnl
      monthlyPnl := s.monthlyPnl + realizedPnl
      totalPnl := s.totalPnl + realizedPnl
      dailyTrades := s.dailyTrades + 1
      winningTrades := s.winningTrades + 1
      consecutiveLosses := 0 }
  else
    { s with
      dailyPnl := s.dailyPnl + realizedPnl
      weeklyPnl := s.weeklyPnl + realizedPnl
      monthlyPnl := s.monthlyPnl + realizedPnl
      totalPnl := s.totalPnl + realizedPnl
      dailyTrades := s.dailyTrades + 1
      losingTrades := s.losingTrades + 1
      lastLossTime := some timestamp
      consecutiveLosses := s.consecutiveLosses + 1 }

/-- `RiskManager.update_pnl(realized_pnl, timestamp)`: rollover check,
P&L accumulation, then halt check. -/
def updatePnl (cfg : RiskConfig) (initialBankroll : ℚ) (realizedPnl : ℚ)
    (timestamp : UTCTime) (s : RiskState) : RiskState :=
  checkHaltConditions cfg initialBankroll
    (applyPnlDelta realizedPnl timestamp (checkPeriodRollovers timestamp s))

/-- The verdict part of `RiskManager.can_trade`, evaluated on the state
left by the rollover check: halted → not allowed; inside the
post-loss cooldown window → not allowed; else allowed. -/
def canTradeVerdict (cfg : RiskConfig) (currentTime : UTCTime)
    (s1 : RiskState) : Bool :=
  if s1.isHalted then false
  else
    match s1.lastLossTime with
    | some lastLoss =>
        if 0 < cfg.cooldownAfterLossMinutes ∧
            currentTime.toMinutes <
              lastLoss.toMinutes + cfg.cooldownAfterLossMinutes then
          false
        else true
    | Option.none => true

/-- `RiskManager.can_trade(current_time)`: the state after the rollover
check, paired with the boolean verdict (the reason string is not
modelled). -/
def canTrade (cfg : RiskConfig) (currentTime : UTCTime) (s : RiskState) :
    RiskState × Bool :=
  let s1 := checkPeriodRollovers currentTime s
  (s1, canTradeVerdict cfg currentTime s1)

/-- `RiskManager.clear_halt(force)`: resulting state and success flag. -/
def clearHalt (force : Bool) (s : RiskState) : RiskState × Bool :=
  if s.isHalted = false then (s, true)
  else if s.haltCondition = HaltCondition.monthlyLoss ∧ force = false then
    (s, false)
  else (clearHaltState s, true)

/-! ## src/strategy/position_sizer.py -/

/-- The `POSITION_SIZING_CONFIG` fields. -/
structure SizerConfig where
  kellyFraction : ℚ
  maxPositionPct : ℚ
  minPosition : ℚ
  maxPosition : ℚ
deriving DecidableEq, Repr

/-- Default `POSITION_SIZING_CONFIG` of `src/app/config.py`. -/
def defaultSizerConfig : SizerConfig :=
  { kellyFraction := 25/100
    maxPositionPct := 5/100
    minPosition := 1
    maxPosition := 10 }

/-- The `constrained_by` tags of `PositionSize`. -/
inductive SizeConstraint where
  | invalidPrice
  | negativeKelly
  | minPositionTag
  | belowMinimum
  | maxPositionTag
  | exposureLimit
deriving DecidableEq, Repr

/-- `PositionSize` dataclass. -/
structure PositionSizeResult where
  size : ℚ
  kellyFractionUsed : ℚ
  fullKellySize : ℚ
  maxAllowed : ℚ
  constrainedBy : Option SizeConstraint
deriving DecidableEq, Repr

/-- Python's `round` in banker's (half-to-even) mode on an exact rational. -/
def roundHalfEven (x : ℚ) : ℤ :=
  if x - ⌊x⌋ < 1/2 then ⌊x⌋
  else if (1:ℚ)/2 < x - ⌊x⌋ then ⌊x⌋ + 1
  else if ⌊x⌋ % 2 = 0 then ⌊x⌋ else ⌊x⌋ + 1

/-- `round(x, 2)`: round to cents, half to even. -/
def roundCents (x : ℚ) : ℚ := (roundHalfEven (100 * x) : ℚ) / 100

/-- `PositionSizer.calculate_kelly_fraction(probability, odds)`. -/
def calculateKellyFraction (probability odds : ℚ) : ℚ :=
  if probability ≤ 0 ∨ 1 ≤ probability then 0
  else if odds ≤ 0 then 0
  else (odds * probability - (1 - probability)) / odds

/-- `PositionSizer.calculate_position_size`.  The Python expression
`(max_exposure_pct or 0.75)` treats both `None` and `0.0` as absent. -/
def calculatePositionSize (cfg : SizerConfig) (bankroll forecastProb marketPrice : ℚ)
    (side : Side) (currentExposure : ℚ) (maxExposurePct : Option ℚ) :
    PositionSizeResult :=
  let prob := if side = Side.yes then forecastProb else 1 - forecastProb
  let price := if side = Side.yes then marketPrice else 1 - marketPrice
  if price ≤ 0 ∨ 1 ≤ price then
    { size := 0, kellyFractionUsed := cfg.kellyFraction, fullKellySize := 0,
      maxAllowed := 0, constrainedBy := some SizeConstraint.invalidPrice }
  else
    let netOdds := (1 - price) / price
    let fullKelly := calculateKellyFraction prob netOdds
    if fullKelly ≤ 0 then
      { size := 0, kellyFractionUsed := cfg.kellyFraction, fullKellySize := 0,
        maxAllowed := cfg.maxPosition,
        constrainedBy := some SizeConstraint.negativeKelly }
    else
      let positionPct := min (fullKelly * cfg.kellyFraction) cfg.maxPositionPct
      let position0 := bankroll * positionPct
      let fullKellyPosition := bankroll * fullKelly
      if position0 < cfg.minPosition ∧ fullKellyPosition < cfg.minPosition then
        { size := 0, kellyFractionUsed := cfg.kellyFraction,
          fullKellySize := fullKellyPosition, maxAllowed := cfg.maxPosition,
          constrainedBy := some SizeConstraint.belowMinimum }
      else
        let pc1 : ℚ × Option SizeConstraint :=
          if position0 < cfg.minPosition then
            (cfg.minPosition, some SizeConstraint.minPositionTag)
          else (position0, Option.none)
        let pc2 : ℚ × Option SizeConstraint :=
          if cfg.maxPosition < pc1.1 then
            (cfg.maxPosition, some SizeConstraint.maxPositionTag)
          else pc1
        let effectivePct :=
          match maxExposurePct with
          | Option.none => (75:ℚ)/100
          | some x => if x = 0 then (75:ℚ)/100 else x
        let maxTotalExposure := bankroll * effectivePct
        let remainingExposure := maxTotalExposure - currentExposure
        if remainingExposure ≤ 0 then
          { size := 0, kellyFractionUsed := cfg.kellyFraction,
            fullKellySize := fullKellyPosition, maxAllowed := 0,
            constrainedBy := some SizeConstraint.exposureLimit }
        else
          let pc3 : ℚ × Option SizeConstraint :=
            if remainingExposure < pc2.1 then
              (remainingExposure, some SizeConstraint.exposureLimit)
            else pc2
          { size := roundCents pc3.1
            kellyFractionUsed := cfg.kellyFraction
            fullKellySize := roundCents fullKellyPosition
            maxAllowed := min cfg.maxPosition remainingExposure
            constrainedBy := pc3.2 }

/-! ## src/strategy/diversification.py -/

/-- The `DIVERSIFICATION_CONFIG` fields read by the filter. -/
structure DivConfig where
  maxTotalExposurePct : ℚ
  maxClusterExposurePct : ℚ
  maxSameDayResolutionPct : ℚ
  minPositionsFor50Pct : ℕ
  minPositionsFor75Pct : ℕ
deriving DecidableEq, Repr

/-- Default `DIVERSIFICATION_CONFIG` of `src/app/config.py`. -/
def defaultDivConfig : DivConfig :=
  { maxTotalExposurePct := 75/100
    maxClusterExposurePct := 30/100
    maxSameDayResolutionPct := 40/100
    minPositionsFor50Pct := 2
    minPositionsFor75Pct := 3 }

/-- The `cities` lists of `GEOGRAPHIC_CLUSTERS` (`src/app/config.py`). -/
def geographicClusters : List (String × List String) :=
  [("US_NORTHEAST",
    ["NYC_LAGUARDIA", "BOSTON_LOGAN", "PHILADELPHIA_INTL", "WASHINGTON_DULLES"]),
   ("US_SOUTHEAST",
    ["MIAMI_INTL", "ATLANTA_HARTSFIELD", "HOUSTON_HOBBY", "NEW_ORLEANS_ARMSTRONG"]),
   ("US_WEST_COAST",
    ["LOS_ANGELES_INTL", "SAN_FRANCISCO_INTL", "SEATTLE_TACOMA", "PHOENIX_SKY"]),
   ("WESTERN_EUROPE",
    ["LONDON_CITY", "PARIS_CDG", "AMSTERDAM_SCHIPHOL", "FRANKFURT_MAIN"])]

/-- `DiversificationFilter.get_cluster_for_location`. -/
def getClusterForLocation (location : String) : Option String :=
  geographicClusters.findSome? (fun cd =>
    if location ∈ cd.2 then some cd.1 else Option.none)

/-- `trade.cluster or self.get_cluster_for_location(trade.location)`:
`None` and the empty string fall through to the lookup. -/
def clusterOrLookup (cluster : Option String) (location : String) : Option String :=
  match cluster with
  | some c => if c = "" then getClusterForLocation location else some c
  | Option.none => getClusterForLocation location

/-- `Position` dataclass of `src/strategy/diversification.py`; the
resolution date is its `"%Y-%m-%d"` key, a day index here. -/
structure DivPosition where
  positionId : String
  marketId : String
  location : String
  cluster : Option String
  size : ℚ
  resolutionDay : ℤ
  side : Side
deriving DecidableEq, Repr

/-- `PortfolioState` dataclass. -/
structure PortfolioState where
  totalExposure : ℚ := 0
  positions : List DivPosition := []
  clusterExposure : List (String × ℚ) := []
  resolutionDateExposure : List (ℤ × ℚ) := []
deriving DecidableEq, Repr

/-- `dict.get(key, 0)` on an association list. -/
def lookupOrZero {α : Type} [BEq α] (l : List (α × ℚ)) (k : α) : ℚ :=
  (l.lookup k).getD 0

/-- Replace the value at `k`, or append the binding (dict update). -/
def setAssoc {α : Type} [BEq α] (l : List (α × ℚ)) (k : α) (v : ℚ) :
    List (α × ℚ) :=
  if l.any (fun p => p.1 == k) then
    l.map (fun p => if p.1 == k then (p.1, v) else p)
  else l ++ [(k, v)]

/-- `PortfolioState.add_position`. -/
def addPosition (s : PortfolioState) (p : DivPosition) : PortfolioState :=
  { totalExposure := s.totalExposure + p.size
    positions := s.positions ++ [p]
    clusterExposure :=
      match p.cluster with
      | some c => setAssoc s.clusterExposure c (lookupOrZero s.clusterExposure c + p.size)
      | Option.none => s.clusterExposure
    resolutionDateExposure :=
      setAssoc s.resolutionDateExposure p.resolutionDay
        (lookupOrZero s.resolutionDateExposure p.resolutionDay + p.size) }

/-- `PortfolioState.get_unique_clusters`, as its cardinality is all the
filter reads (`len(set(...))`). -/
def uniqueClusterCount (s : PortfolioState) : ℕ :=
  ((s.positions.filterMap (fun p => p.cluster)).dedup).length

/-- The `constraints_applied` tags. -/
inductive DivConstraint where
  | totalExposure
  | clusterLimit
  | sameDayLimit
  | clusterDiversity50
  | clusterDiversity75
deriving DecidableEq, Repr

/-- `TradeCandidate` dataclass. -/
structure TradeCandidate where
  marketId : String
  location : String
  cluster : Option String
  proposedSize : ℚ
  resolutionDay : ℤ
  side : Side
deriving DecidableEq, Repr

/-- `DiversificationResult` (the reason string is represented by the
constraint tags). -/
structure DiversificationResult where
  allowed : Bool
  maxAllowedSize : ℚ
  constraintsApplied : List DivConstraint
deriving DecidableEq, Repr

/-- `DiversificationFilter._check_cluster_diversity`. -/
def checkClusterDiversity (cfg : DivConfig) (trade : TradeCandidate)
    (portfolio : PortfolioState) (maxTotal currentMaxAllowed : ℚ) :
    Option DiversificationResult :=
  let nClusters := uniqueClusterCount portfolio
  let tradeCluster := clusterOrLookup trade.cluster trade.location
  let addsNewCluster :=
    match tradeCluster with
    | some c => decide (c ∉ portfolio.positions.filterMap (fun p => p.cluster))
    | Option.none => false
  let newExposure := portfolio.totalExposure + currentMaxAllowed
  let newExposurePct := if 0 < maxTotal then newExposure / maxTotal else 0
  if 50/100 < newExposurePct ∧ nClusters < cfg.minPositionsFor50Pct ∧
      addsNewCluster = false then
    let cap := maxTotal * (50/100) - portfolio.totalExposure
    if cap ≤ 0 then
      some { allowed := false, maxAllowedSize := 0,
             constraintsApplied := [DivConstraint.clusterDiversity50] }
    else
      some { allowed := true, maxAllowedSize := cap,
             constraintsApplied := [DivConstraint.clusterDiversity50] }
  else if 75/100 < newExposurePct ∧ nClusters < cfg.minPositionsFor75Pct then
    let cap := maxTotal * (75/100) - portfolio.totalExposure
    if cap ≤ 0 then
      some { allowed := false, maxAllowedSize := 0,
             constraintsApplied := [DivConstraint.clusterDiversity75] }
    else
      some { allowed := true, maxAllowedSize := cap,
             constraintsApplied := [DivConstraint.clusterDiversity75] }
  else Option.none

/-- `DiversificationFilter.check_diversification_limits`. -/
def checkDiversificationLimits (cfg : DivConfig) (trade : TradeCandidate)
    (portfolio : PortfolioState) (bankroll : ℚ) : DiversificationResult :=
  let maxTotal := bankroll * cfg.maxTotalExposurePct
  if maxTotal ≤ portfolio.totalExposure then
    { allowed := false, maxAllowedSize := 0,
      constraintsApplied := [DivConstraint.totalExposure] }
  else
    let remainingCapacity := maxTotal - portfolio.totalExposure
    let mc1 : ℚ × List DivConstraint :=
      if remainingCapacity < trade.proposedSize then
        (remainingCapacity, [DivConstraint.totalExposure])
      else (trade.proposedSize, [])
    let cluster := clusterOrLookup trade.cluster trade.location
    -- `none` encodes the early-return rejection of the cluster check
    let clusterStep : Option (ℚ × List DivConstraint) :=
      match cluster with
      | some c =>
          if 0 < portfolio.totalExposure then
            let clusterLimit := portfolio.totalExposure * cfg.maxClusterExposurePct
            let clusterRemaining := clusterLimit - lookupOrZero portfolio.clusterExposure c
            if clusterRemaining ≤ 0 then Option.none
            else if clusterRemaining < mc1.1 then
              some (clusterRemaining, mc1.2 ++ [DivConstraint.clusterLimit])
            else some mc1
          else some mc1
      | Option.none => some mc1
    match clusterStep with
    | Option.none =>
        { allowed := false, maxAllowedSize := 0,
          constraintsApplied := [DivConstraint.clusterLimit] }
    | some mc2 =>
        let sameDayStep :=
          if 0 < portfolio.totalExposure then
            let sameDayLimit := portfolio.totalExposure * cfg.maxSameDayResolutionPct
            let sameDayRemaining :=
              sameDayLimit - lookupOrZero portfolio.resolutionDateExposure trade.resolutionDay
            if sameDayRemaining ≤ 0 then Option.none
            else if sameDayRemaining < mc2.1 then
              some (sameDayRemaining, mc2.2 ++ [DivConstraint.sameDayLimit])
            else some mc2
          else some mc2
        match sameDayStep with
        | Option.none =>
            { allowed := false, maxAllowedSize := 0,
              constraintsApplied := [DivConstraint.sameDayLimit] }
        | some mc3 =>
            let afterDiversity : ℚ × List DivConstraint ⊕ DiversificationResult :=
              match checkClusterDiversity cfg trade portfolio maxTotal mc3.1 with
              | Option.none => Sum.inl mc3
              | some r =>
                  if r.allowed = false then Sum.inr r
                  else if r.maxAllowedSize < mc3.1 then
                    Sum.inl (r.maxAllowedSize, mc3.2 ++ r.constraintsApplied)
                  else Sum.inl mc3
            match afterDiversity with
            | Sum.inr r => r
            | Sum.inl mc4 =>
                if mc4.1 < 1 then
                  { allowed := false, maxAllowedSize := 0,
                    constraintsApplied := mc4.2 }
                else
                  { allowed := true, maxAllowedSize := mc4.1,
                    constraintsApplied := mc4.2 }

/-! ## src/execution/order_monitor.py -/

/-- `OrderStatus` enum (`PARTIALLY_FILLED` is `partFilled` here). -/
inductive OrderStatus where
  | pending
  | opn
  | partFilled
  | filled
  | cancelled
  | expired
  | rejected
deriving DecidableEq, Repr

/-- `Order.is_complete()`: terminal statuses. -/
def OrderStatus.isComplete : OrderStatus → Bool
  | OrderStatus.filled => true
  | OrderStatus.cancelled => true
  | OrderStatus.expired => true
  | OrderStatus.rejected => true
  | _ => false

/-- The monitored order state manipulated by `OrderMonitor`, together with
instrumentation counters for the callback deliveries (`on_fill`,
`on_complete`, `on_timeout`) observed so far. -/
structure MOrder where
  status : OrderStatus
  price : ℚ
  filledSize : ℚ := 0
  filledQuantity : ℚ := 0
  averageFillPrice : ℚ := 0
  nFills : ℕ := 0
  nComplete : ℕ := 0
  nTimeout : ℕ := 0
deriving DecidableEq, Repr

/-- One venue update dict as read by `_process_order_update`: `status`
maps through `status_map` (an unrecognized string keeps the old status,
encoded by `Option.none`), `filled_size` is `Option.none` when the value is
not a float (then no fill is processed), and `price` defaults to the
order's price. -/
structure OrderUpdate where
  newStatus : Option OrderStatus
  filledSize : Option ℚ
  price : Option ℚ
deriving DecidableEq, Repr

/-- The fill-detection block of `_process_order_update`: when the venue
reports more filled size than recorded, record the fill, update the
averages, and deliver `on_fill`. -/
def applyFill (o : MOrder) (fs : Option ℚ) (pr : Option ℚ) : MOrder :=
  match fs with
  | some f =>
      if o.filledSize < f then
        { o with
          filledSize := f
          filledQuantity := o.filledQuantity + (f - o.filledSize) / pr.getD o.price
          averageFillPrice :=
            if 0 < o.filledQuantity + (f - o.filledSize) / pr.getD o.price then
              f / (o.filledQuantity + (f - o.filledSize) / pr.getD o.price)
            else o.averageFillPrice
          nFills := o.nFills + 1 }
      else o
  | Option.none => o

/-- The status-update block of `_process_order_update`: on an actual
status change store it, and on a transition into a terminal status
deliver `on_complete`. -/
def applyStatusChange (newStatus : OrderStatus) (o1 : MOrder) : MOrder :=
  if newStatus ≠ o1.status then
    if newStatus.isComplete then
      { o1 with status := newStatus, nComplete := o1.nComplete + 1 }
    else { o1 with status := newStatus }
  else o1

/-- `OrderMonitor._process_order_update(order, update)`: the mapped
status (defaulting to the current one) is computed from the order's
status at entry; fills are processed first, then the status change. -/
def processOrderUpdate (o : MOrder) (u : OrderUpdate) : MOrder :=
  applyStatusChange (u.newStatus.getD o.status) (applyFill o u.filledSize u.price)

/-- `OrderMonitor._handle_timeout(order, reason)`: the status is forced to
`EXPIRED` and the `on_timeout` callback fires (the best-effort venue
cancel is external I/O). -/
def handleTimeout (o : MOrder) : MOrder :=
  { o with status := OrderStatus.expired, nTimeout := o.nTimeout + 1 }

/-- `OrderMonitor.cancel_order`: returns unchanged when the order is
already complete, else forces `CANCELLED` and fires `on_complete`. -/
def cancelOrder (o : MOrder) : MOrder :=
  if o.status.isComplete then o
  else { o with status := OrderStatus.cancelled, nComplete := o.nComplete + 1 }

/-- The events the monitor can process for one order. -/
inductive MonitorEvent where
  | update (u : OrderUpdate)
  | timeout
  | cancel
deriving DecidableEq, Repr

/-- One monitor step for one order.  `update` and `timeout` are guarded by
`is_complete` because `_check_orders` and `_check_timeouts` iterate
`get_open_orders()`, which filters complete orders out; `cancel_order`
carries its own guard. -/
def monitorStep (o : MOrder) : MonitorEvent → MOrder
  | MonitorEvent.update u => if o.status.isComplete then o else processOrderUpdate o u
  | MonitorEvent.timeout => if o.status.isComplete then o else handleTimeout o
  | MonitorEvent.cancel => cancelOrder o

/-- A whole monitored lifetime of one order. -/
def monitorRun (o : MOrder) (events : List MonitorEvent) : MOrder :=
  events.foldl monitorStep o

/-! ## src/app/services/event_loop.py -/

/-- `TaskPriority` (`auto()` numbers CRITICAL..LOW as 1..4). -/
inductive TaskPriority where
  | critical
  | high
  | normal
  | low
deriving DecidableEq, Repr

/-- `priority.value`. -/
def TaskPriority.value : TaskPriority → ℕ
  | TaskPriority.critical => 1
  | TaskPriority.high => 2
  | TaskPriority.normal => 3
  | TaskPriority.low => 4

/-- The `ScheduledTask` fields read by `_get_due_tasks` and the per-tick
sort (`next_run` is a timestamp in seconds). -/
structure STask where
  name : String
  intervalSeconds : ℕ
  priority : TaskPriority
  nextRun : Option ℚ
  enabled : Bool := true
deriving DecidableEq, Repr

/-- `TradingEventLoop._get_due_tasks()`: enabled tasks whose `next_run` is
unset or has passed, in registration (dict insertion) order. -/
def getDueTasks (tasks : List STask) (now : ℚ) : List STask :=
  tasks.filter (fun t =>
    t.enabled &&
      match t.nextRun with
      | Option.none => true
      | some r => decide (r ≤ now))

/-- `due_tasks.sort(key=lambda t: t.priority.value)` in `_run_loop`.
Python's `list.sort` is stable, and for a four-valued key a stable sort is
exactly the concatenation of the equal-key sublists in their original
order. -/
def sortByPriority (l : List STask) : List STask :=
  l.filter (fun t => t.priority == TaskPriority.critical)
    ++ l.filter (fun t => t.priority == TaskPriority.high)
    ++ l.filter (fun t => t.priority == TaskPriority.normal)
    ++ l.filter (fun t => t.priority == TaskPriority.low)

/-- The order in which one tick of `_run_loop` executes its due tasks. -/
def tickExecutionOrder (tasks : List STask) (now : ℚ) : List STask :=
  sortByPriority (getDueTasks tasks now)

/-! ## src/execution/position_tracker.py -/

/-- `PositionStatus` enum. -/
inductive PositionStatus where
  | opn
  | closing
  | closed
  | expired
deriving DecidableEq, Repr

/-- The `TrackedPosition` fields touched by `close_position`. -/
structure TrackedPos where
  positionId : String
  side : Side
  quantity : ℚ
  size : ℚ
  entryPrice : ℚ
  currentPrice : ℚ
  status : PositionStatus := PositionStatus.opn
  unrealizedPnl : ℚ := 0
  unrealizedPnlPct : ℚ := 0
  realizedPnl : ℚ := 0
deriving DecidableEq, Repr

/-- The `PositionTracker` state touched by `close_position`, with a counter
for `on_position_closed` callback deliveries. -/
structure TrackerState where
  positions : List (String × TrackedPos) := []
  closedPositions : List TrackedPos := []
  totalRealizedPnl : ℚ := 0
  nClosedCallbacks : ℕ := 0
deriving DecidableEq, Repr

/-- `PositionTracker.close_position(position_id, exit_price, reason)`:
returns the new tracker state and the realized P&L, `Option.none` when the
position is unknown or not OPEN.  `exit_price or position.current_price`
treats `None` and `0.0` alike. -/
def closePosition (s : TrackerState) (positionId : String)
    (exitPrice : Option ℚ) : TrackerState × Option ℚ :=
  match s.positions.lookup positionId with
  | Option.none => (s, Option.none)
  | some p =>
      if p.status ≠ PositionStatus.opn then (s, Option.none)
      else
        let ep :=
          match exitPrice with
          | some x => if x = 0 then p.currentPrice else x
          | Option.none => p.currentPrice
        let realized :=
          if p.side = Side.yes then (ep - p.entryPrice) * p.quantity
          else (p.entryPrice - ep) * p.quantity
        let p' := { p with
          status := PositionStatus.closed
          realizedPnl := realized
          unrealizedPnl := 0 }
        ({ positions := s.positions.map (fun q =>
             if q.1 == positionId then (q.1, p') else q)
           closedPositions := s.closedPositions ++ [p']
           totalRealizedPnl := s.totalRealizedPnl + realized
           nClosedCallbacks := s.nClosedCallbacks + 1 },
         some realized)

/-! ## Concrete scenario inputs and auxiliary predicates -/

/-- Callback-counter soundness for a monitored order: while the order is
not terminal no completion or timeout callback has fired, and once it is
terminal exactly one of the two has fired. -/
def MonitorCountersOk (o : MOrder) : Prop :=
  (o.status.isComplete = false → o.nComplete = 0 ∧ o.nTimeout = 0) ∧
  (o.status.isComplete = true → o.nComplete + o.nTimeout = 1)

/-- Scenario S4: the existing 300 USD position in cluster A. -/
def s4Position : DivPosition :=
  { positionId := "p1"
    marketId := "m1"
    location := "locA"
    cluster := some "A"
    size := 300
    resolutionDay := 0
    side := Side.yes }

/-- Scenario S4: the portfolio holding only `s4Position`. -/
def s4Portfolio : PortfolioState := addPosition {} s4Position

/-- Scenario S4: the candidate trade of size 100 in cluster A, resolving
on a different calendar day than the existing position. -/
def s4Trade : TradeCandidate :=
  { marketId := "m2"
    location := "locA"
    cluster := some "A"
    proposedSize := 100
    resolutionDay := 1
    side := Side.yes }

/-- Two registered NORMAL-priority tasks: the one registered first is due
later (`next_run = 10`) than the one registered second (`next_run = 5`). -/
def normalTaskLate : STask :=
  { name := "market_scan", intervalSeconds := 300,
    priority := TaskPriority.normal, nextRun := some 10 }

/-- See `normalTaskLate`. -/
def normalTaskEarly : STask :=
  { name := "trading_cycle", intervalSeconds := 120,
    priority := TaskPriority.normal, nextRun := some 5 }

/-- A freshly added pending order (witness input). -/
def pendingOrderW : MOrder := { status := OrderStatus.pending, price := 1 }

/-- An open order (counterexample input for the timeout path). -/
def openOrderW : MOrder := { status := OrderStatus.opn, price := 1 }

/-- Venue updates taking `pendingOrderW` to OPEN and then to FILLED with a
full fill of 5 at price 1. -/
def fillEventsW : List MonitorEvent :=
  [MonitorEvent.update { newStatus := some OrderStatus.opn,
                         filledSize := Option.none, price := Option.none },
   MonitorEvent.update { newStatus := some OrderStatus.filled,
                         filledSize := some 5, price := some 1 }]

/-- An ensemble response whose single model carries no member values. -/
def emptyEnsembleW : List (String × List ℚ) := [("gfs_seamless", [])]

/-- A stand-in for `statistics.stdev` (never reached on the inputs used). -/
def zeroStdev : List ℚ → ℚ := fun _ => 0

/-- A risk state halted by the monthly loss limit (scenario S3: P&L of
−40 against bankroll 100 and `max_monthly_loss_pct = 0.40`). -/
def monthlyHaltedState : RiskState :=
  { dailyPnl := 0
    weeklyPnl := -40
    monthlyPnl := -40
    totalPnl := -40
    dailyStart := 4
    weeklyStart := 0
    monthlyStart := 0
    isHalted := true
    haltCondition := HaltCondition.monthlyLoss }

/-- Witness timestamps for the risk-manager claims. -/
def tSameDayW : UTCTime := { day := 0, monthStart := 0, minuteOfDay := 600 }

/-- A timestamp on the next UTC day. -/
def tNextDayW : UTCTime := { day := 1, monthStart := 0, minuteOfDay := 30 }

/-- A timestamp well after `monthlyHaltedState`'s period starts. -/
def tLaterW : UTCTime := { day := 40, monthStart := 31, minuteOfDay := 0 }

/-- A tracked position that is already closed (witness input for
`close_position`). -/
def closedPositionW : TrackedPos :=
  { positionId := "p1"
    side := Side.yes
    quantity := 10
    size := 6
    entryPrice := 3/5
    currentPrice := 97/100
    status := PositionStatus.closed }

/-- A tracker whose only position is `closedPositionW`. -/
def closedTrackerW : TrackerState :=
  { positions := [("p1", closedPositionW)]
    closedPositions := [closedPositionW]
    totalRealizedPnl := 4
    nClosedCallbacks := 1 }

/-! ## Theorems

Claim theorems, their counterexamples and witnesses, with shared helper
lemmas. -/

/-- C7 counterexample: for the one-member ensemble `[5]` and threshold 10
with `>=`, no member exceeds (`k = 0`) and the smoothed probability equals
the lower endpoint `1/(n+2) = 1/3` exactly, so it does not lie *strictly*
between `1/(n+2)` and `(n+1)/(n+2)` as claimed. -/
theorem claim_C7_counterexample :
    calculateExceedanceProbability [5] 10 Comparison.ge true = 1/3 ∧
    ¬(1 / (((1:ℚ)) + 2) < calculateExceedanceProbability [5] 10 Comparison.ge true) := by
  norm_num [calculateExceedanceProbability, countExceed]

/-- C7 (amended): for every non-empty ensemble, threshold, and comparison
operator, the smoothed probability equals `(k+1)/(n+2)` and lies in the
*closed* interval `[1/(n+2), (n+1)/(n+2)]`, hence strictly inside
`(0, 1)`. -/
theorem claim_C7 (ensembleValues : List ℚ) (threshold : ℚ) (c : Comparison)
    (h : ensembleValues ≠ []) :
    calculateExceedanceProbability ensembleValues threshold c true =
      ((countExceed ensembleValues threshold c : ℚ) + 1) /
        ((ensembleValues.length : ℚ) + 2) ∧
    1 / ((ensembleValues.length : ℚ) + 2) ≤
      calculateExceedanceProbability ensembleValues threshold c true ∧
    calculateExceedanceProbability ensembleValues threshold c true ≤
      ((ensembleValues.length : ℚ) + 1) / ((ensembleValues.length : ℚ) + 2) ∧
    0 < calculateExceedanceProbability ensembleValues threshold c true ∧
    calculateExceedanceProbability ensembleValues threshold c true < 1 := by
  have hk : (countExceed ensembleValues threshold c : ℚ) ≤
      (ensembleValues.length : ℚ) := by
    have : countExceed ensembleValues threshold c ≤ ensembleValues.length := by
      cases c <;> exact List.countP_le_length _
    exact_mod_cast this
  have hk0 : (0:ℚ) ≤ (countExceed ensembleValues threshold c : ℚ) := by positivity
  have hd : (0:ℚ) < (ensembleValues.length : ℚ) + 2 := by positivity
  have heq : calculateExceedanceProbability ensembleValues threshold c true =
      ((countExceed ensembleValues threshold c : ℚ) + 1) /
        ((ensembleValues.length : ℚ) + 2) := by
    simp [calculateExceedanceProbability, h]
  refine ⟨heq, ?_, ?_, ?_, ?_⟩ <;> rw [heq]
  · rw [div_le_div_iff_of_pos_right hd]
    linarith
  · rw [div_le_div_iff_of_pos_right hd]
    linarith
  · positivity
  · rw [div_lt_one hd]
    linarith

/-- C7 witness: the amended theorem applied to the concrete ensemble
`[5]`. -/
theorem claim_C7_witness :
    ([(5:ℚ)] ≠ ([] : List ℚ)) ∧
    0 < calculateExceedanceProbability [5] 10 Comparison.ge true ∧
    calculateExceedanceProbability [5] 10 Comparison.ge true < 1 :=
  ⟨by simp,
   (claim_C7 [5] 10 Comparison.ge (by simp)).2.2.2.1,
   (claim_C7 [5] 10 Comparison.ge (by simp)).2.2.2.2⟩

/-- C8: for all inputs of `calculate_edge`, the YES-side edge is strictly
positive exactly when the clamped forecast probability exceeds the clamped
market price. -/
theorem claim_C8 (forecastProb marketPrice modelAgreement : ℚ)
    (modelProbabilities : List (String × ℚ)) :
    (0 < (calculateEdge forecastProb marketPrice modelAgreement
        modelProbabilities).edgeYes ↔
      clampPrice marketPrice < clampPrice forecastProb) := by
  have hm : 0 < clampPrice marketPrice :=
    lt_of_lt_of_le (by norm_num) (le_max_left _ _)
  have hy : (calculateEdge forecastProb marketPrice modelAgreement
      modelProbabilities).edgeYes =
      clampPrice forecastProb / clampPrice marketPrice - 1 := rfl
  rw [hy, sub_pos, one_lt_div hm]

/-- C9: when every model's member list is empty (or there are no models),
`calculate_forecast_probability` returns probability exactly 1/2 with
model agreement 0 and an empty per-model table, and for every market
price the resulting `EdgeCalculation` fails `is_tradeable` (the agreement
0 is below the 0.60 minimum). -/
theorem claim_C9 (stdev : List ℚ → ℚ) (ensembleData : List (String × List ℚ))
    (threshold : ℚ) (c : Comparison) (unit : String)
    (modelWeights : Option (List (String × ℚ)))
    (h : ∀ md ∈ ensembleData, md.2 = ([] : List ℚ)) :
    calculateForecastProbability stdev ensembleData threshold c unit
      modelWeights = (1/2, 0, []) ∧
    ∀ marketPrice : ℚ,
      isTradeable (calculateEdge (1/2) marketPrice 0 []) = false := by
  constructor
  · have hnil : ensembleData.filterMap (fun md =>
        if md.2 = ([] : List ℚ) then Option.none
        else some (md.1,
          calculateExceedanceProbability md.2 (adjustThreshold unit md.1 threshold)
            c true)) = [] := by
      rw [List.filterMap_eq_nil_iff]
      intro md hmd
      simp [h md hmd]
    simp [calculateForecastProbability, hnil]
  · intro marketPrice
    have ha : (calculateEdge (1/2) marketPrice 0 []).modelAgreement = 0 := rfl
    have hdec : decide (minModelAgreementConfig ≤ (0:ℚ)) = false :=
      decide_eq_false (by norm_num [minModelAgreementConfig])
    unfold isTradeable
    rw [ha, hdec, Bool.and_false]

/-- C9 witness: the theorem applied to a single model with an empty member
list and market price 0.4. -/
theorem claim_C9_witness :
    (∀ md ∈ emptyEnsembleW, md.2 = ([] : List ℚ)) ∧
    calculateForecastProbability zeroStdev emptyEnsembleW 17 Comparison.ge
      "fahrenheit" Option.none = (1/2, 0, []) ∧
    isTradeable (calculateEdge (1/2) (2/5) 0 []) = false :=
  ⟨by simp [emptyEnsembleW],
   (claim_C9 zeroStdev emptyEnsembleW 17 Comparison.ge "fahrenheit" Option.none
     (by simp [emptyEnsembleW])).1,
   (claim_C9 zeroStdev emptyEnsembleW 17 Comparison.ge "fahrenheit" Option.none
     (by simp [emptyEnsembleW])).2 (2/5)⟩

/-- C10: `close_position` on an id that is not tracked, or whose position
is not OPEN, returns `None` and leaves the whole tracker state unchanged
(no position fields change, the realized-P&L accumulator and the
closed-position list are untouched, and `on_position_closed` does not
fire). -/
theorem claim_C10 (s : TrackerState) (positionId : String)
    (exitPrice : Option ℚ)
    (h : ∀ p, s.positions.lookup positionId = some p →
      p.status ≠ PositionStatus.opn) :
    closePosition s positionId exitPrice = (s, Option.none) := by
  unfold closePosition
  cases hl : s.positions.lookup positionId with
  | none => rfl
  | some p => simp [h p hl]

/-- C10 witness: the theorem applied to a tracker whose only position is
already CLOSED. -/
theorem claim_C10_witness :
    (∀ p, closedTrackerW.positions.lookup "p1" = some p →
      p.status ≠ PositionStatus.opn) ∧
    closePosition closedTrackerW "p1" Option.none = (closedTrackerW, Option.none) :=
  ⟨by
    intro p hp
    have hl : closedTrackerW.positions.lookup "p1" = some closedPositionW := rfl
    rw [hl] at hp
    cases hp
    simp [closedPositionW],
   claim_C10 closedTrackerW "p1" Option.none (by
    intro p hp
    have hl : closedTrackerW.positions.lookup "p1" = some closedPositionW := rfl
    rw [hl] at hp
    cases hp
    simp [closedPositionW])⟩

/-- C4 counterexample: in scenario S4 (bankroll 1000, default
configuration with `max_total_exposure_pct = 0.75` and
`min_positions_for_50_pct = 2`, one 300 USD position in cluster A,
candidate of size 100 in cluster A) the check does *not* return allowed:
the per-cluster cap of check 2 (30% of the current 300 total exposure
= 90) is already exceeded by the existing position, so the code rejects
with `cluster_limit` before the cluster-diversity-50 logic is reached. -/
theorem claim_C4_counterexample :
    (checkDiversificationLimits defaultDivConfig s4Trade s4Portfolio 1000).allowed
      = false ∧
    ¬((checkDiversificationLimits defaultDivConfig s4Trade s4Portfolio 1000).allowed
        = true ∧
      (checkDiversificationLimits defaultDivConfig s4Trade s4Portfolio 1000).maxAllowedSize
        = 75 ∧
      (checkDiversificationLimits defaultDivConfig s4Trade s4Portfolio 1000).constraintsApplied
        = [DivConstraint.clusterDiversity50]) := by
  have h : checkDiversificationLimits defaultDivConfig s4Trade s4Portfolio 1000 =
      { allowed := false, maxAllowedSize := 0,
        constraintsApplied := [DivConstraint.clusterLimit] } := by
    norm_num [checkDiversificationLimits, defaultDivConfig, s4Portfolio, s4Trade,
      s4Position, addPosition, clusterOrLookup, lookupOrZero, setAssoc,
      checkClusterDiversity, uniqueClusterCount, List.lookup,
      show ("A":String) ≠ "" from by decide,
      show (("A":String) == "A") = true from by decide]
  rw [h]
  simp

/-- C4 (amended): on the S4 inputs the check returns *not allowed* with
`max_allowed_size = 0` and the single constraint `cluster_limit`: the
cluster cap (`total_exposure · max_cluster_exposure_pct = 90`) is already
exceeded by the existing 300 USD cluster-A position, so the candidate is
rejected at check 2 and the `cluster_diversity_50` cap is never
consulted. -/
theorem claim_C4 :
    checkDiversificationLimits defaultDivConfig s4Trade s4Portfolio 1000 =
      { allowed := false, maxAllowedSize := 0,
        constraintsApplied := [DivConstraint.clusterLimit] } := by
  norm_num [checkDiversificationLimits, defaultDivConfig, s4Portfolio, s4Trade,
    s4Position, addPosition, clusterOrLookup, lookupOrZero, setAssoc,
    checkClusterDiversity, uniqueClusterCount, List.lookup,
    show ("A":String) ≠ "" from by decide,
    show (("A":String) == "A") = true from by decide]

/-- The daily rollover block does not touch the halt fields unless the
halt cause is `DAILY_LOSS`. -/
theorem dailyRollover_halt_of_ne (t : UTCTime) (s : RiskState)
    (h : s.haltCondition ≠ HaltCondition.dailyLoss) :
    (dailyRollover t s).isHalted = s.isHalted ∧
    (dailyRollover t s).haltCondition = s.haltCondition := by
  unfold dailyRollover rolloverClear
  split_ifs <;> simp_all

/-- The weekly rollover block does not touch the halt fields unless the
halt cause is `WEEKLY_LOSS`. -/
theorem weeklyRollover_halt_of_ne (t : UTCTime) (s : RiskState)
    (h : s.haltCondition ≠ HaltCondition.weeklyLoss) :
    (weeklyRollover t s).isHalted = s.isHalted ∧
    (weeklyRollover t s).haltCondition = s.haltCondition := by
  unfold weeklyRollover rolloverClear
  split_ifs <;> simp_all

/-- The monthly rollover block never touches the halt fields. -/
theorem monthlyRollover_halt (t : UTCTime) (s : RiskState) :
    (monthlyRollover t s).isHalted = s.isHalted ∧
    (monthlyRollover t s).haltCondition = s.haltCondition := by
  unfold monthlyRollover
  split_ifs <;> simp_all

/-- C2: a MONTHLY_LOSS halt survives every period rollover at every
timestamp, `clear_halt(force=False)` is rejected and leaves the state
untouched, and `clear_halt(force=True)` clears the halt. -/
theorem claim_C2 (s : RiskState) (h1 : s.isHalted = true)
    (h2 : s.haltCondition = HaltCondition.monthlyLoss) :
    (∀ t : UTCTime, (checkPeriodRollovers t s).isHalted = true ∧
      (checkPeriodRollovers t s).haltCondition = HaltCondition.monthlyLoss) ∧
    clearHalt false s = (s, false) ∧
    (clearHalt true s).1.isHalted = false ∧
    (clearHalt true s).2 = true := by
  refine ⟨?_, ?_, ?_, ?_⟩
  · intro t
    have hd := dailyRollover_halt_of_ne t s (by rw [h2]; intro hc; cases hc)
    have hw := weeklyRollover_halt_of_ne t (dailyRollover t s)
      (by rw [hd.2, h2]; intro hc; cases hc)
    have hm := monthlyRollover_halt t (weeklyRollover t (dailyRollover t s))
    unfold checkPeriodRollovers
    rw [hm.1, hm.2, hw.1, hw.2, hd.1, hd.2]
    exact ⟨h1, h2⟩
  · simp [clearHalt, h1, h2]
  · simp [clearHalt, h1, h2, clearHaltState]
  · simp [clearHalt, h1, h2]

/-- C2 witness: the theorem applied to the scenario-S3 state (monthly
P&L −40 against bankroll 100), with a rollover timestamp five weeks
later. -/
theorem claim_C2_witness :
    monthlyHaltedState.isHalted = true ∧
    monthlyHaltedState.haltCondition = HaltCondition.monthlyLoss ∧
    (checkPeriodRollovers tLaterW monthlyHaltedState).isHalted = true ∧
    clearHalt false monthlyHaltedState = (monthlyHaltedState, false) ∧
    (clearHalt true monthlyHaltedState).1.isHalted = false :=
  ⟨rfl, rfl,
   ((claim_C2 monthlyHaltedState rfl rfl).1 tLaterW).1,
   (claim_C2 monthlyHaltedState rfl rfl).2.1,
   (claim_C2 monthlyHaltedState rfl rfl).2.2.1⟩

/-- A non-halted state stays non-halted through the daily rollover. -/
theorem dailyRollover_not_halted (t : UTCTime) (s : RiskState)
    (h : s.isHalted = false) : (dailyRollover t s).isHalted = false := by
  unfold dailyRollover rolloverClear
  split_ifs <;> simp_all [clearHaltState]

/-- A non-halted state stays non-halted through the weekly rollover. -/
theorem weeklyRollover_not_halted (t : UTCTime) (s : RiskState)
    (h : s.isHalted = false) : (weeklyRollover t s).isHalted = false := by
  unfold weeklyRollover rolloverClear
  split_ifs <;> simp_all [clearHaltState]

/-- The daily rollover is the identity when the day has not advanced. -/
theorem dailyRollover_id (t : UTCTime) (s : RiskState)
    (h : ¬ s.dailyStart < t.day) : dailyRollover t s = s := by
  unfold dailyRollover
  rw [if_neg h]

/-- The day-start stored after the daily rollover. -/
theorem dailyRollover_dailyStart (t : UTCTime) (s : RiskState) :
    (dailyRollover t s).dailyStart =
      if s.dailyStart < t.day then t.day else s.dailyStart := by
  unfold dailyRollover rolloverClear
  split_ifs <;> simp_all [clearHaltState]

/-- A DAILY_LOSS halt is cleared, and the daily P&L zeroed, by a daily
rollover that fires. -/
theorem dailyRollover_clears (t : UTCTime) (s : RiskState)
    (h : s.haltCondition = HaltCondition.dailyLoss)
    (hd : s.dailyStart < t.day) :
    (dailyRollover t s).isHalted = false ∧
    (dailyRollover t s).haltCondition = HaltCondition.none ∧
    (dailyRollover t s).dailyPnl = 0 ∧
    (dailyRollover t s).dailyStart = t.day := by
  unfold dailyRollover rolloverClear
  rw [if_pos hd]
  simp [h, clearHaltState]

/-- The weekly rollover touches neither daily P&L nor the daily start. -/
theorem weeklyRollover_daily_fields (t : UTCTime) (s : RiskState) :
    (weeklyRollover t s).dailyPnl = s.dailyPnl ∧
    (weeklyRollover t s).dailyStart = s.dailyStart := by
  unfold weeklyRollover rolloverClear
  split_ifs <;> simp_all [clearHaltState]

/-- The monthly rollover touches neither daily P&L nor the daily start. -/
theorem monthlyRollover_daily_fields (t : UTCTime) (s : RiskState) :
    (monthlyRollover t s).dailyPnl = s.dailyPnl ∧
    (monthlyRollover t s).dailyStart = s.dailyStart := by
  unfold monthlyRollover
  split_ifs <;> simp_all

/-- The P&L-accumulation block: its effect on the fields the halt logic
reads. -/
theorem applyPnlDelta_fields (δ : ℚ) (t : UTCTime) (s : RiskState) :
    (applyPnlDelta δ t s).isHalted = s.isHalted ∧
    (applyPnlDelta δ t s).haltCondition = s.haltCondition ∧
    (applyPnlDelta δ t s).dailyPnl = s.dailyPnl + δ ∧
    (applyPnlDelta δ t s).dailyStart = s.dailyStart := by
  unfold applyPnlDelta
  split_ifs <;> simp_all

/-- The halt check never changes the P&L trackers or the period starts. -/
theorem checkHaltConditions_fields (cfg : RiskConfig) (b : ℚ) (s : RiskState) :
    (checkHaltConditions cfg b s).dailyPnl = s.dailyPnl ∧
    (checkHaltConditions cfg b s).dailyStart = s.dailyStart := by
  unfold checkHaltConditions
  split_ifs <;> simp_all [triggerHalt]

/-- `update_pnl` leaves the daily P&L at the post-rollover value plus the
delta. -/
theorem updatePnl_dailyPnl (cfg : RiskConfig) (b δ : ℚ) (t : UTCTime)
    (s : RiskState) :
    (updatePnl cfg b δ t s).dailyPnl =
      (checkPeriodRollovers t s).dailyPnl + δ := by
  unfold updatePnl
  rw [(checkHaltConditions_fields cfg b _).1, (applyPnlDelta_fields δ t _).2.2.1]

/-- The halt check on a non-halted state whose daily P&L is at or below
the daily limit triggers a DAILY_LOSS halt (the daily branch is listed
first). -/
theorem checkHaltConditions_daily (cfg : RiskConfig) (b : ℚ) (s : RiskState)
    (h0 : s.isHalted = false)
    (hd : s.dailyPnl ≤ -(b * cfg.maxDailyLossPct)) :
    checkHaltConditions cfg b s = triggerHalt HaltCondition.dailyLoss s := by
  unfold checkHaltConditions
  rw [h0]
  simp [hd]

/-- C1: when `update_pnl` brings the daily P&L to or below
`−initial_bankroll · max_daily_loss_pct` (starting from a non-halted
state whose stored daily start is not in the future), the manager halts
with cause DAILY_LOSS; every `can_trade` call later in the same UTC day
returns false; and a `can_trade` or `update_pnl` call on a later UTC day
runs a rollover that zeroes the daily P&L and clears the halt (for
`update_pnl`, the new delta is then accumulated onto the zeroed daily
P&L). -/
theorem claim_C1 (cfg : RiskConfig) (bankroll δ : ℚ) (t : UTCTime)
    (s : RiskState) (h0 : s.isHalted = false) (hs : s.dailyStart ≤ t.day)
    (hd : (updatePnl cfg bankroll δ t s).dailyPnl ≤
      -(bankroll * cfg.maxDailyLossPct)) :
    (updatePnl cfg bankroll δ t s).isHalted = true ∧
    (updatePnl cfg bankroll δ t s).haltCondition = HaltCondition.dailyLoss ∧
    (∀ t2 : UTCTime, t2.day = t.day →
      (canTrade cfg t2 (updatePnl cfg bankroll δ t s)).2 = false) ∧
    (∀ t3 : UTCTime, t.day < t3.day →
      (canTrade cfg t3 (updatePnl cfg bankroll δ t s)).1.dailyPnl = 0 ∧
      (canTrade cfg t3 (updatePnl cfg bankroll δ t s)).1.isHalted = false ∧
      ∀ δ2 : ℚ,
        (updatePnl cfg bankroll δ2 t3 (updatePnl cfg bankroll δ t s)).dailyPnl
          = δ2) := by
  -- the state after the rollover check inside the first update_pnl
  have f1 : (checkPeriodRollovers t s).isHalted = false := by
    unfold checkPeriodRollovers
    rw [(monthlyRollover_halt t _).1]
    exact weeklyRollover_not_halted t _ (dailyRollover_not_halted t s h0)
  have f2 : (checkPeriodRollovers t s).dailyStart = t.day := by
    unfold checkPeriodRollovers
    rw [(monthlyRollover_daily_fields t _).2, (weeklyRollover_daily_fields t _).2,
      dailyRollover_dailyStart]
    split_ifs with hlt
    · rfl
    · omega
  -- the state fed into the halt check
  have g1 : (applyPnlDelta δ t (checkPeriodRollovers t s)).isHalted = false := by
    rw [(applyPnlDelta_fields δ t _).1]
    exact f1
  have g2 : (applyPnlDelta δ t (checkPeriodRollovers t s)).dailyStart = t.day := by
    rw [(applyPnlDelta_fields δ t _).2.2.2]
    exact f2
  -- the halt check fires the daily trigger
  have hd3 : (applyPnlDelta δ t (checkPeriodRollovers t s)).dailyPnl ≤
      -(bankroll * cfg.maxDailyLossPct) := by
    have := (checkHaltConditions_fields cfg bankroll
      (applyPnlDelta δ t (checkPeriodRollovers t s))).1
    unfold updatePnl at hd
    rw [this] at hd
    exact hd
  have hmain : updatePnl cfg bankroll δ t s =
      triggerHalt HaltCondition.dailyLoss
        (applyPnlDelta δ t (checkPeriodRollovers t s)) := by
    unfold updatePnl
    exact checkHaltConditions_daily cfg bankroll _ g1 hd3
  have hHalted : (updatePnl cfg bankroll δ t s).isHalted = true := by
    rw [hmain]; rfl
  have hCause : (updatePnl cfg bankroll δ t s).haltCondition =
      HaltCondition.dailyLoss := by
    rw [hmain]; rfl
  have hStart : (updatePnl cfg bankroll δ t s).dailyStart = t.day := by
    rw [hmain]
    show (applyPnlDelta δ t (checkPeriodRollovers t s)).dailyStart = t.day
    exact g2
  refine ⟨hHalted, hCause, ?_, ?_⟩
  · -- same-day can_trade sees the halt
    intro t2 ht2
    have hid : dailyRollover t2 (updatePnl cfg bankroll δ t s) =
        updatePnl cfg bankroll δ t s := by
      apply dailyRollover_id
      rw [hStart, ht2]
      omega
    have hw := weeklyRollover_halt_of_ne t2 (updatePnl cfg bankroll δ t s)
      (by rw [hCause]; intro hc; cases hc)
    have hroll : (checkPeriodRollovers t2 (updatePnl cfg bankroll δ t s)).isHalted
        = true := by
      unfold checkPeriodRollovers
      rw [hid, (monthlyRollover_halt t2 _).1, hw.1]
      exact hHalted
    show canTradeVerdict cfg t2 _ = false
    unfold canTradeVerdict
    rw [hroll]
    simp
  · -- later-day rollover zeroes the daily P&L and clears the halt
    intro t3 ht3
    have hfire : (updatePnl cfg bankroll δ t s).dailyStart < t3.day := by
      rw [hStart]; exact ht3
    have hclear := dailyRollover_clears t3 (updatePnl cfg bankroll δ t s)
      hCause hfire
    have hw := weeklyRollover_halt_of_ne t3
      (dailyRollover t3 (updatePnl cfg bankroll δ t s))
      (by rw [hclear.2.1]; intro hc; cases hc)
    have hroll0 : (checkPeriodRollovers t3 (updatePnl cfg bankroll δ t s)).dailyPnl
        = 0 := by
      unfold checkPeriodRollovers
      rw [(monthlyRollover_daily_fields t3 _).1, (weeklyRollover_daily_fields t3 _).1]
      exact hclear.2.2.1
    have hrollh : (checkPeriodRollovers t3 (updatePnl cfg bankroll δ t s)).isHalted
        = false := by
      unfold checkPeriodRollovers
      rw [(monthlyRollover_halt t3 _).1, hw.1]
      exact hclear.1
    refine ⟨hroll0, hrollh, ?_⟩
    intro δ2
    rw [updatePnl_dailyPnl, hroll0, zero_add]

/-- C1 witness: scenario S2 collapsed to one realized loss of −11 against
bankroll 100 with `max_daily_loss_pct = 0.10`, checked at the same-day
timestamp and at a next-day timestamp. -/
theorem claim_C1_witness :
    (({} : RiskState).isHalted = false) ∧
    (({} : RiskState).dailyStart ≤ tSameDayW.day) ∧
    ((updatePnl defaultRiskConfig 100 (-11) tSameDayW {}).dailyPnl ≤
      -(100 * defaultRiskConfig.maxDailyLossPct)) ∧
    (updatePnl defaultRiskConfig 100 (-11) tSameDayW {}).isHalted = true ∧
    (updatePnl defaultRiskConfig 100 (-11) tSameDayW {}).haltCondition
      = HaltCondition.dailyLoss ∧
    (canTrade defaultRiskConfig tSameDayW
      (updatePnl defaultRiskConfig 100 (-11) tSameDayW {})).2 = false ∧
    (canTrade defaultRiskConfig tNextDayW
      (updatePnl defaultRiskConfig 100 (-11) tSameDayW {})).1.dailyPnl = 0 ∧
    (canTrade defaultRiskConfig tNextDayW
      (updatePnl defaultRiskConfig 100 (-11) tSameDayW {})).1.isHalted = false := by
  have hpnl : (updatePnl defaultRiskConfig 100 (-11) tSameDayW {}).dailyPnl
      = -11 := by
    norm_num [updatePnl, checkPeriodRollovers, dailyRollover, weeklyRollover,
      monthlyRollover, applyPnlDelta, checkHaltConditions, triggerHalt,
      clearHaltState, defaultRiskConfig, tSameDayW, UTCTime.weekStart]
  have h0 : ({} : RiskState).isHalted = false := rfl
  have hs : ({} : RiskState).dailyStart ≤ tSameDayW.day := by
    norm_num [tSameDayW]
  have hd : (updatePnl defaultRiskConfig 100 (-11) tSameDayW {}).dailyPnl ≤
      -(100 * defaultRiskConfig.maxDailyLossPct) := by
    rw [hpnl]
    norm_num [defaultRiskConfig]
  have main := claim_C1 defaultRiskConfig 100 (-11) tSameDayW {} h0 hs hd
  exact ⟨h0, hs, hd, main.1, main.2.1, main.2.2.1 tSameDayW rfl,
    (main.2.2.2 tNextDayW (by norm_num [tSameDayW, tNextDayW])).1,
    (main.2.2.2 tNextDayW (by norm_num [tSameDayW, tNextDayW])).2.1⟩

/-- A terminal order is a fixed point of the monitor: every further
update, timeout, or cancellation leaves it unchanged. -/
theorem monitorStep_complete_fix (o : MOrder) (e : MonitorEvent)
    (h : o.status.isComplete = true) : monitorStep o e = o := by
  cases e <;> simp [monitorStep, cancelOrder, h]

/-- The fill block never touches the status or the callback counters. -/
theorem applyFill_preserves (o : MOrder) (fs pr : Option ℚ) :
    (applyFill o fs pr).status = o.status ∧
    (applyFill o fs pr).nComplete = o.nComplete ∧
    (applyFill o fs pr).nTimeout = o.nTimeout := by
  unfold applyFill
  cases fs with
  | none => exact ⟨rfl, rfl, rfl⟩
  | some f =>
      dsimp only
      split_ifs <;> simp

/-- One monitor step preserves callback-counter soundness. -/
theorem monitorStep_countersOk (o : MOrder) (e : MonitorEvent)
    (h : MonitorCountersOk o) : MonitorCountersOk (monitorStep o e) := by
  cases hC : o.status.isComplete
  · have hz := h.1 hC
    cases e with
    | update u =>
        simp only [monitorStep, hC, Bool.false_eq_true, if_false]
        have hp := applyFill_preserves o u.filledSize u.price
        unfold processOrderUpdate applyStatusChange
        split_ifs <;>
          constructor <;> intro hx <;>
            simp_all [MonitorCountersOk]
    | timeout =>
        simp only [monitorStep, hC, Bool.false_eq_true, if_false]
        unfold handleTimeout
        constructor <;> intro hx <;> simp_all [OrderStatus.isComplete]
    | cancel =>
        simp only [monitorStep, cancelOrder, hC, Bool.false_eq_true, if_false]
        constructor <;> intro hx <;> simp_all [OrderStatus.isComplete]
  · rw [monitorStep_complete_fix o e hC]
    exact h

/-- A whole run preserves callback-counter soundness. -/
theorem monitorRun_countersOk (o : MOrder) (events : List MonitorEvent)
    (h : MonitorCountersOk o) : MonitorCountersOk (monitorRun o events) := by
  induction events generalizing o with
  | nil => exact h
  | cons e es ih => exact ih (monitorStep o e) (monitorStep_countersOk o e h)

/-- C5 counterexample: an OPEN order processed by the timeout path ends in
the terminal status EXPIRED, yet `on_complete` has fired zero times (the
timeout path fires `on_timeout` instead), refuting "`onComplete` is
invoked exactly once for every order that reaches a terminal status —
including orders that become EXPIRED via the timeout path". -/
theorem claim_C5_counterexample :
    (monitorRun openOrderW [MonitorEvent.timeout]).status = OrderStatus.expired ∧
    ((monitorRun openOrderW [MonitorEvent.timeout]).status.isComplete = true) ∧
    (monitorRun openOrderW [MonitorEvent.timeout]).nComplete = 0 := by
  refine ⟨rfl, rfl, rfl⟩

/-- C5 (amended): starting from a non-terminal order with no callbacks
delivered, any sequence of venue updates, timeouts, and cancellations
leaves the order with at most one completion-type callback delivered;
the order has reached a terminal status exactly when one such callback
fired — `on_complete` for terminal transitions seen by
`_process_order_update` or `cancel_order`, `on_timeout` (instead of
`on_complete`) for the timeout path — and a terminal order is a fixed
point, so it reaches at most one terminal status. -/
theorem claim_C5 (o : MOrder) (events : List MonitorEvent)
    (h0 : o.status.isComplete = false) (h1 : o.nComplete = 0)
    (h2 : o.nTimeout = 0) :
    ((monitorRun o events).nComplete + (monitorRun o events).nTimeout ≤ 1) ∧
    ((monitorRun o events).status.isComplete = true ↔
      (monitorRun o events).nComplete + (monitorRun o events).nTimeout = 1) ∧
    (∀ e : MonitorEvent, (monitorRun o events).status.isComplete = true →
      monitorStep (monitorRun o events) e = monitorRun o events) := by
  have hOk : MonitorCountersOk o := by
    constructor
    · intro _; exact ⟨h1, h2⟩
    · intro hx; rw [h0] at hx; cases hx
  have hOk' := monitorRun_countersOk o events hOk
  refine ⟨?_, ?_, ?_⟩
  · cases hC : (monitorRun o events).status.isComplete
    · have := hOk'.1 hC
      omega
    · have := hOk'.2 hC
      omega
  · constructor
    · intro hC
      exact hOk'.2 hC
    · intro hn
      cases hC : (monitorRun o events).status.isComplete
      · have := hOk'.1 hC
        omega
      · rfl
  · intro e hC
    exact monitorStep_complete_fix (monitorRun o events) e hC

/-- C5 witness: a pending order taken to OPEN and then FILLED by venue
updates; exactly one completion callback fires. -/
theorem claim_C5_witness :
    (pendingOrderW.status.isComplete = false) ∧
    (pendingOrderW.nComplete = 0) ∧
    (pendingOrderW.nTimeout = 0) ∧
    ((monitorRun pendingOrderW fillEventsW).nComplete +
      (monitorRun pendingOrderW fillEventsW).nTimeout ≤ 1) :=
  ⟨rfl, rfl, rfl, (claim_C5 pendingOrderW fillEventsW rfl rfl rfl).1⟩

/-- A member of a priority block of the per-tick sort carries that
block's priority. -/
theorem mem_priorityBlock (l : List STask) (p : TaskPriority) (a : STask)
    (ha : a ∈ l.filter (fun t => t.priority == p)) : a.priority = p := by
  simpa using List.of_mem_filter ha

/-- The per-tick sort is a permutation of the due-task list. -/
theorem sortByPriority_perm (l : List STask) : (sortByPriority l).Perm l := by
  rw [List.perm_iff_count]
  intro a
  have hT : ∀ p : TaskPriority, a.priority = p →
      List.count a (l.filter (fun t => t.priority == p)) = List.count a l :=
    fun p hp => List.count_filter (by simp [hp])
  have hF : ∀ p : TaskPriority, a.priority ≠ p →
      List.count a (l.filter (fun t => t.priority == p)) = 0 := by
    intro p hp
    refine List.count_eq_zero.mpr (fun hm => hp ?_)
    exact mem_priorityBlock l p a hm
  simp only [sortByPriority, List.count_append]
  cases ha : a.priority
  case critical =>
    rw [hT TaskPriority.critical ha,
      hF TaskPriority.high (by rw [ha]; intro hc; cases hc),
      hF TaskPriority.normal (by rw [ha]; intro hc; cases hc),
      hF TaskPriority.low (by rw [ha]; intro hc; cases hc)]
    omega
  case high =>
    rw [hT TaskPriority.high ha,
      hF TaskPriority.critical (by rw [ha]; intro hc; cases hc),
      hF TaskPriority.normal (by rw [ha]; intro hc; cases hc),
      hF TaskPriority.low (by rw [ha]; intro hc; cases hc)]
    omega
  case normal =>
    rw [hT TaskPriority.normal ha,
      hF TaskPriority.critical (by rw [ha]; intro hc; cases hc),
      hF TaskPriority.high (by rw [ha]; intro hc; cases hc),
      hF TaskPriority.low (by rw [ha]; intro hc; cases hc)]
    omega
  case low =>
    rw [hT TaskPriority.low ha,
      hF TaskPriority.critical (by rw [ha]; intro hc; cases hc),
      hF TaskPriority.high (by rw [ha]; intro hc; cases hc),
      hF TaskPriority.normal (by rw [ha]; intro hc; cases hc)]
    omega

/-- The per-tick sort output is non-decreasing in priority value. -/
theorem sortByPriority_sorted (l : List STask) :
    List.Pairwise (fun a b : STask => a.priority.value ≤ b.priority.value)
      (sortByPriority l) := by
  have hblock : ∀ p : TaskPriority,
      List.Pairwise (fun a b : STask => a.priority.value ≤ b.priority.value)
        (l.filter (fun t => t.priority == p)) := by
    intro p
    apply List.pairwise_of_forall_mem_list
    intro a ha b hb
    rw [mem_priorityBlock l p a ha, mem_priorityBlock l p b hb]
  have hcross : ∀ p q : TaskPriority, p.value ≤ q.value →
      ∀ a ∈ l.filter (fun t => t.priority == p),
      ∀ b ∈ l.filter (fun t => t.priority == q),
      a.priority.value ≤ b.priority.value := by
    intro p q hpq a ha b hb
    rw [mem_priorityBlock l p a ha, mem_priorityBlock l q b hb]
    exact hpq
  simp only [sortByPriority]
  rw [List.pairwise_append]
  refine ⟨?_, ?_, ?_⟩
  · rw [List.pairwise_append]
    refine ⟨?_, ?_, ?_⟩
    · rw [List.pairwise_append]
      exact ⟨hblock _, hblock _,
        hcross TaskPriority.critical TaskPriority.high (by norm_num [TaskPriority.value])⟩
    · exact hblock _
    · intro a ha b hb
      rcases List.mem_append.mp ha with h | h
      · exact hcross TaskPriority.critical TaskPriority.normal
          (by norm_num [TaskPriority.value]) a h b hb
      · exact hcross TaskPriority.high TaskPriority.normal
          (by norm_num [TaskPriority.value]) a h b hb
  · exact hblock _
  · intro a ha b hb
    rcases List.mem_append.mp ha with h | h
    · rcases List.mem_append.mp h with h' | h'
      · exact hcross TaskPriority.critical TaskPriority.low
          (by norm_num [TaskPriority.value]) a h' b hb
      · exact hcross TaskPriority.high TaskPriority.low
          (by norm_num [TaskPriority.value]) a h' b hb
    · exact hcross TaskPriority.normal TaskPriority.low
        (by norm_num [TaskPriority.value]) a h b hb

/-- Filtering one priority out of another priority's block gives
nothing. -/
theorem filter_priorityBlock_ne (l : List STask) (p q : TaskPriority)
    (hpq : p ≠ q) :
    (l.filter (fun t => t.priority == q)).filter (fun t => t.priority == p)
      = [] := by
  rw [List.filter_filter, List.filter_eq_nil_iff]
  intro a _
  simp only [Bool.and_eq_true, beq_iff_eq]
  rintro ⟨h1, h2⟩
  exact hpq (h1 ▸ h2 ▸ rfl)

/-- Filtering a priority's own block is the identity. -/
theorem filter_priorityBlock_eq (l : List STask) (p : TaskPriority) :
    (l.filter (fun t => t.priority == p)).filter (fun t => t.priority == p)
      = l.filter (fun t => t.priority == p) := by
  rw [List.filter_filter]
  apply List.filter_congr
  intro a _
  cases h : (a.priority == p) <;> simp [h]

/-- C6 counterexample: two NORMAL-priority due tasks where the task
registered first has the *later* `next_due` (10 vs 5).  At `now = 10` the
tick executes them in registration order — the later-due task first — so
the due list is not sorted by `(priority, next_due)` as claimed (that
order would run `normalTaskEarly` first). -/
theorem claim_C6_counterexample :
    normalTaskLate.priority = normalTaskEarly.priority ∧
    normalTaskLate.nextRun = some 10 ∧
    normalTaskEarly.nextRun = some 5 ∧
    tickExecutionOrder [normalTaskLate, normalTaskEarly] 10 =
      [normalTaskLate, normalTaskEarly] ∧
    tickExecutionOrder [normalTaskLate, normalTaskEarly] 10 ≠
      [normalTaskEarly, normalTaskLate] := by
  refine ⟨rfl, rfl, rfl, by decide, by decide⟩

/-- C6 (amended): each tick sorts the due tasks stably by priority value
*alone*: the executed order is a permutation of the due list, it is
non-decreasing in priority value (so CRITICAL runs before HIGH before
NORMAL before LOW), and within each priority the registration order of
`_get_due_tasks` is preserved — `next_due` plays no role in the
ordering. -/
theorem claim_C6 (tasks : List STask) (now : ℚ) :
    (tickExecutionOrder tasks now).Perm (getDueTasks tasks now) ∧
    List.Pairwise (fun a b : STask => a.priority.value ≤ b.priority.value)
      (tickExecutionOrder tasks now) ∧
    ∀ p : TaskPriority,
      (tickExecutionOrder tasks now).filter (fun t => t.priority == p) =
        (getDueTasks tasks now).filter (fun t => t.priority == p) := by
  refine ⟨sortByPriority_perm _, sortByPriority_sorted _, ?_⟩
  intro p
  simp only [tickExecutionOrder, sortByPriority, List.filter_append]
  cases p
  case critical =>
    rw [filter_priorityBlock_eq,
      filter_priorityBlock_ne _ _ TaskPriority.high (by intro hc; cases hc),
      filter_priorityBlock_ne _ _ TaskPriority.normal (by intro hc; cases hc),
      filter_priorityBlock_ne _ _ TaskPriority.low (by intro hc; cases hc)]
    simp
  case high =>
    rw [filter_priorityBlock_eq,
      filter_priorityBlock_ne _ _ TaskPriority.critical (by intro hc; cases hc),
      filter_priorityBlock_ne _ _ TaskPriority.normal (by intro hc; cases hc),
      filter_priorityBlock_ne _ _ TaskPriority.low (by intro hc; cases hc)]
    simp
  case normal =>
    rw [filter_priorityBlock_eq,
      filter_priorityBlock_ne _ _ TaskPriority.critical (by intro hc; cases hc),
      filter_priorityBlock_ne _ _ TaskPriority.high (by intro hc; cases hc),
      filter_priorityBlock_ne _ _ TaskPriority.low (by intro hc; cases hc)]
    simp
  case low =>
    rw [filter_priorityBlock_eq,
      filter_priorityBlock_ne _ _ TaskPriority.critical (by intro hc; cases hc),
      filter_priorityBlock_ne _ _ TaskPriority.high (by intro hc; cases hc),
      filter_priorityBlock_ne _ _ TaskPriority.normal (by intro hc; cases hc)]
    simp

/-- Rounding half-to-even never rounds below an integer lower bound. -/
theorem le_roundHalfEven {n : ℤ} {x : ℚ} (h : (n:ℚ) ≤ x) :
    n ≤ roundHalfEven x := by
  have hf : n ≤ ⌊x⌋ := Int.le_floor.mpr h
  unfold roundHalfEven
  split_ifs <;> omega

/-- Rounding half-to-even never rounds above an integer upper bound. -/
theorem roundHalfEven_le {n : ℤ} {x : ℚ} (h : x ≤ (n:ℚ)) :
    roundHalfEven x ≤ n := by
  have hmono : ⌊x⌋ ≤ n := by
    have := Int.floor_le_floor h
    simpa using this
  have hfl : (⌊x⌋ : ℚ) ≤ x := Int.floor_le x
  unfold roundHalfEven
  split_ifs with h1 h2 h3
  · exact hmono
  · have hq : (⌊x⌋:ℚ) < (n:ℚ) := by linarith
    have : ⌊x⌋ < n := by exact_mod_cast hq
    omega
  · exact hmono
  · have h12 : (1:ℚ)/2 ≤ x - ⌊x⌋ := by linarith
    have hq : (⌊x⌋:ℚ) < (n:ℚ) := by linarith
    have : ⌊x⌋ < n := by exact_mod_cast hq
    omega

/-- Rounding to cents preserves nonnegativity. -/
theorem roundCents_nonneg {x : ℚ} (h : 0 ≤ x) : 0 ≤ roundCents x := by
  unfold roundCents
  have h0 : ((0:ℤ):ℚ) ≤ 100 * x := by push_cast; linarith
  have h1 := le_roundHalfEven h0
  have h2 : ((0:ℤ):ℚ) ≤ (roundHalfEven (100 * x) : ℚ) := by exact_mod_cast h1
  push_cast at h2
  linarith

/-- Rounding to cents preserves the `min_position = 1` lower bound. -/
theorem one_le_roundCents {x : ℚ} (h : 1 ≤ x) : 1 ≤ roundCents x := by
  unfold roundCents
  have h0 : ((100:ℤ):ℚ) ≤ 100 * x := by push_cast; linarith
  have h1 := le_roundHalfEven h0
  have h2 : ((100:ℤ):ℚ) ≤ (roundHalfEven (100 * x) : ℚ) := by exact_mod_cast h1
  push_cast at h2
  linarith

/-- Rounding to cents preserves the `max_position = 10` upper bound. -/
theorem roundCents_le_ten {x : ℚ} (h : x ≤ 10) : roundCents x ≤ 10 := by
  unfold roundCents
  have h0 : 100 * x ≤ ((1000:ℤ):ℚ) := by push_cast; linarith
  have h1 := roundHalfEven_le h0
  have h2 : (roundHalfEven (100 * x) : ℚ) ≤ ((1000:ℤ):ℚ) := by exact_mod_cast h1
  push_cast at h2
  linarith

/-- C3 counterexample: with the default configuration
(`min_position = 1`, `max_position = 10`), bankroll 100, forecast
probability 0.9, market price 0.5, side YES and current exposure 74.50
(so that only 0.50 of the 75 USD exposure cap remains), the returned
size is 0.50 — neither 0 nor inside `[min_position, max_position]`. -/
theorem claim_C3_counterexample :
    (calculatePositionSize defaultSizerConfig 100 (9/10) (1/2) Side.yes
      (149/2) Option.none).size = 1/2 ∧
    ¬((calculatePositionSize defaultSizerConfig 100 (9/10) (1/2) Side.yes
        (149/2) Option.none).size = 0 ∨
      (defaultSizerConfig.minPosition ≤
        (calculatePositionSize defaultSizerConfig 100 (9/10) (1/2) Side.yes
          (149/2) Option.none).size ∧
       (calculatePositionSize defaultSizerConfig 100 (9/10) (1/2) Side.yes
          (149/2) Option.none).size ≤ defaultSizerConfig.maxPosition)) := by
  have h : (calculatePositionSize defaultSizerConfig 100 (9/10) (1/2) Side.yes
      (149/2) Option.none).size = 1/2 := by
    norm_num [calculatePositionSize, defaultSizerConfig,
      calculateKellyFraction, roundCents, roundHalfEven]
  refine ⟨h, ?_⟩
  rw [h]
  norm_num [defaultSizerConfig]

set_option maxHeartbeats 1000000 in
/-- C3 (amended): for every input over the default configuration the
returned size lies in `[0, max_position]`; it is 0 or in
`[min_position, max_position]` whenever the final constraint is not the
exposure limit — the exposure-limit clamp (and only it) can produce a
positive size below `min_position`, which cent-rounding can take as low
as 0. -/
theorem claim_C3 (bankroll forecastProb marketPrice : ℚ) (side : Side)
    (currentExposure : ℚ) (maxExposurePct : Option ℚ) :
    0 ≤ (calculatePositionSize defaultSizerConfig bankroll forecastProb
      marketPrice side currentExposure maxExposurePct).size ∧
    (calculatePositionSize defaultSizerConfig bankroll forecastProb
      marketPrice side currentExposure maxExposurePct).size ≤
        defaultSizerConfig.maxPosition ∧
    ((calculatePositionSize defaultSizerConfig bankroll forecastProb
        marketPrice side currentExposure maxExposurePct).constrainedBy ≠
          some SizeConstraint.exposureLimit →
      (calculatePositionSize defaultSizerConfig bankroll forecastProb
        marketPrice side currentExposure maxExposurePct).size = 0 ∨
      (defaultSizerConfig.minPosition ≤
        (calculatePositionSize defaultSizerConfig bankroll forecastProb
          marketPrice side currentExposure maxExposurePct).size ∧
       (calculatePositionSize defaultSizerConfig bankroll forecastProb
          marketPrice side currentExposure maxExposurePct).size ≤
            defaultSizerConfig.maxPosition)) := by
  simp only [calculatePositionSize, defaultSizerConfig]
  split_ifs <;> simp_all
  all_goals
    first
    | exact ⟨roundCents_nonneg (by linarith), roundCents_le_ten (by linarith)⟩
    | exact ⟨roundCents_nonneg (by linarith), roundCents_le_ten (by linarith),
        Or.inr ⟨one_le_roundCents (by linarith), roundCents_le_ten (by linarith)⟩⟩

/-- C3 witness: the amended theorem at scenario-S1-like inputs (bankroll
100, forecast 0.9, price 0.5, no exposure), where the constraint is not
the exposure limit and the size is in `[min_position, max_position]`. -/
theorem claim_C3_witness :
    ((calculatePositionSize defaultSizerConfig 100 (9/10) (1/2) Side.yes 0
      Option.none).constrainedBy ≠ some SizeConstraint.exposureLimit) ∧
    ((calculatePositionSize defaultSizerConfig 100 (9/10) (1/2) Side.yes 0
        Option.none).size = 0 ∨
      (defaultSizerConfig.minPosition ≤
        (calculatePositionSize defaultSizerConfig 100 (9/10) (1/2) Side.yes 0
          Option.none).size ∧
       (calculatePositionSize defaultSizerConfig 100 (9/10) (1/2) Side.yes 0
          Option.none).size ≤ defaultSizerConfig.maxPosition)) :=
  ⟨by
    norm_num [calculatePositionSize, defaultSizerConfig, calculateKellyFraction]
    simp,
   (claim_C3 100 (9/10) (1/2) Side.yes 0 Option.none).2.2 (by
    norm_num [calculatePositionSize, defaultSizerConfig, calculateKellyFraction]
    simp)⟩

end WeatherBot
